import Mathlib

/-!
Shallow embedding of the pip_search program (files pip_search/pip_search.py,
pip_search/utils.py, pip_search/__main__.py) and theorems about its
behaviour. Python strings are modelled by Lean strings at the ASCII level
(PyPI package metadata is ASCII); machine-level effects (HTTP, subprocess)
are modelled by explicit outcome values passed in; raised exceptions are
modelled by Except.error carrying the exception text.
-/

/-! ## Python string primitives -/

/-- Lowercasing of one character, as Python str.lower acts on ASCII. -/
def pyLowerChar (c : Char) : Char :=
  if 'A' ≤ c ∧ c ≤ 'Z' then Char.ofNat (c.toNat + 32) else c

/-- Model of Python str.lower (ASCII fragment). -/
def pyLower (s : String) : String := ⟨s.data.map pyLowerChar⟩

/-- ASCII whitespace, as recognised by Python str.strip. -/
def pySpace (c : Char) : Bool :=
  c = ' ' || c = '\t' || c = '\n' || c = '\r' || c = '\x0b' || c = '\x0c'

/-- Model of Python str.strip: drop leading and trailing whitespace. -/
def pyStrip (s : String) : String :=
  ⟨((s.data.dropWhile pySpace).reverse.dropWhile pySpace).reverse⟩

/-- Code-point lexicographic comparison of character lists, as Python
compares strings; returns true when the first is ≤ the second. -/
def strLeAux : List Char → List Char → Bool
  | [], _ => true
  | _ :: _, [] => false
  | a :: as, b :: bs =>
    if a.toNat < b.toNat then true
    else if b.toNat < a.toNat then false
    else strLeAux as bs

/-- Python string ≤ (code-point lexicographic). -/
def strLe (a b : String) : Bool := strLeAux a.data b.data

/-- The list pat occurs as a contiguous run at the head of the second list. -/
def charsHasPref : List Char → List Char → Bool
  | [], _ => true
  | _ :: _, [] => false
  | a :: as, b :: bs => a == b && charsHasPref as bs

/-- The list pat occurs somewhere in the second list. -/
def charsHasSub (pat : List Char) : List Char → Bool
  | [] => pat.isEmpty
  | c :: cs => charsHasPref pat (c :: cs) || charsHasSub pat cs

/-- Substring test, modelling Python `sub in s` and the CSS `*=` match. -/
def containsSub (s pat : String) : Bool := charsHasSub pat.data s.data

/-- The decimal digit character for n < 10. -/
def digitChar (n : Nat) : Char := Char.ofNat (48 + n)

/-- Decimal digits of n, with fuel to keep the recursion structural. -/
def natDigitsAux : Nat → Nat → List Char
  | 0, _ => []
  | fuel + 1, n =>
    if n < 10 then [digitChar n]
    else natDigitsAux fuel (n / 10) ++ [digitChar (n % 10)]

/-- Decimal rendering of a natural number. -/
def natToStr (n : Nat) : String := ⟨natDigitsAux (n + 1) n⟩

/-- Two-digit zero-padded decimal rendering. -/
def pad2 (n : Nat) : String := if n < 10 then "0" ++ natToStr n else natToStr n

/-! ## Datetime model (the slice of Python datetime the program uses) -/

/-- A parsed timezone-aware timestamp, the result of datetime.strptime with
the backend format "%Y-%m-%dT%H:%M:%S%z". -/
structure Datetime where
  year : Nat
  month : Nat
  day : Nat
  hour : Nat
  minute : Nat
  second : Nat
  tzMinutes : Int
deriving DecidableEq

/-- One decimal digit. -/
def readDigit (c : Char) : Option Nat :=
  if '0' ≤ c ∧ c ≤ '9' then some (c.toNat - 48) else none

/-- Two decimal digits. -/
def read2 : List Char → Option (Nat × List Char)
  | a :: b :: rest =>
    match readDigit a, readDigit b with
    | some x, some y => some (x * 10 + y, rest)
    | _, _ => none
  | _ => none

/-- Four decimal digits. -/
def read4 : List Char → Option (Nat × List Char)
  | a :: b :: c :: d :: rest =>
    match readDigit a, readDigit b, readDigit c, readDigit d with
    | some x, some y, some z, some w => some (((x * 10 + y) * 10 + z) * 10 + w, rest)
    | _, _, _, _ => none
  | _ => none

/-- One expected literal character. -/
def readCh (c : Char) : List Char → Option (List Char)
  | d :: rest => if d = c then some rest else none
  | [] => none

/-- The hours-minutes tail of a %z offset, accepting HHMM and HH:MM. -/
def readTzTail (sign : Int) (cs : List Char) : Option (Int × List Char) :=
  match read2 cs with
  | none => none
  | some (h, rest) =>
    let rest' := match rest with
      | ':' :: r => r
      | r => r
    match read2 rest' with
    | none => none
    | some (m, rest2) => some (sign * (h * 60 + m), rest2)

/-- A %z timezone offset: Z, +HHMM, -HHMM, +HH:MM or -HH:MM. -/
def readTz : List Char → Option (Int × List Char)
  | 'Z' :: rest => some (0, rest)
  | '+' :: rest => readTzTail 1 rest
  | '-' :: rest => readTzTail (-1) rest
  | _ => none

/-- Gregorian leap year. -/
def isLeap (y : Nat) : Bool := (y % 4 == 0 && y % 100 != 0) || y % 400 == 0

/-- Length of a month, as datetime validates days. -/
def daysInMonth (y m : Nat) : Nat :=
  if m = 2 then (if isLeap y then 29 else 28)
  else if m = 4 || m = 6 || m = 9 || m = 11 then 30
  else 31

/-- Model of datetime.strptime with the program's fixed backend timestamp
format "%Y-%m-%dT%H:%M:%S%z", for the zero-padded inputs PyPI emits; none
models the ValueError Python raises on nonconforming input (including
trailing unconverted data and out-of-range calendar fields). -/
def strptime (s : String) : Option Datetime := do
  let (y, r1) ← read4 s.data
  let r2 ← readCh '-' r1
  let (mo, r3) ← read2 r2
  let r4 ← readCh '-' r3
  let (d, r5) ← read2 r4
  let r6 ← readCh 'T' r5
  let (h, r7) ← read2 r6
  let r8 ← readCh ':' r7
  let (mi, r9) ← read2 r8
  let r10 ← readCh ':' r9
  let (sec, r11) ← read2 r10
  let (tz, r12) ← readTz r11
  if r12 = [] ∧ 1 ≤ y ∧ 1 ≤ mo ∧ mo ≤ 12 ∧ 1 ≤ d ∧ d ≤ daysInMonth y mo
      ∧ h ≤ 23 ∧ mi ≤ 59 ∧ sec ≤ 61 then
    some ⟨y, mo, d, h, mi, sec, tz⟩
  else
    none

/-- Days since 1970-01-01 of a civil date (Hinnant's algorithm; all
intermediate quantities are nonnegative for years ≥ 1). -/
def daysFromCivil (y m d : Nat) : Int :=
  let y' : Nat := if m ≤ 2 then y - 1 else y
  let era : Nat := y' / 400
  let yoe : Nat := y' % 400
  let mp : Nat := if 2 < m then m - 3 else m + 9
  let doy : Nat := (153 * mp + 2) / 5 + d - 1
  let doe : Nat := yoe * 365 + yoe / 4 - yoe / 100 + doy
  (era : Int) * 146097 + (doe : Int) - 719468

/-- The UTC instant of an aware datetime in seconds since the epoch; Python
compares aware datetimes by this instant. -/
def epochSec (dt : Datetime) : Int :=
  daysFromCivil dt.year dt.month dt.day * 86400
    + (dt.hour : Int) * 3600 + (dt.minute : Int) * 60 + (dt.second : Int)
    - dt.tzMinutes * 60

/-- English month abbreviation, for the %b strftime directive. -/
def monthAbbr (m : Nat) : String :=
  match m with
  | 1 => "Jan"
  | 2 => "Feb"
  | 3 => "Mar"
  | 4 => "Apr"
  | 5 => "May"
  | 6 => "Jun"
  | 7 => "Jul"
  | 8 => "Aug"
  | 9 => "Sep"
  | 10 => "Oct"
  | 11 => "Nov"
  | 12 => "Dec"
  | _ => ""

/-- Expansion of strftime directives over the format characters; covers the
directives reachable from the program's configurable date_format. -/
def strftimeAux (dt : Datetime) : List Char → List Char
  | [] => []
  | '%' :: '-' :: 'd' :: rest => (natToStr dt.day).data ++ strftimeAux dt rest
  | '%' :: 'Y' :: rest => (natToStr dt.year).data ++ strftimeAux dt rest
  | '%' :: 'm' :: rest => (pad2 dt.month).data ++ strftimeAux dt rest
  | '%' :: 'd' :: rest => (pad2 dt.day).data ++ strftimeAux dt rest
  | '%' :: 'b' :: rest => (monthAbbr dt.month).data ++ strftimeAux dt rest
  | '%' :: 'H' :: rest => (pad2 dt.hour).data ++ strftimeAux dt rest
  | '%' :: 'M' :: rest => (pad2 dt.minute).data ++ strftimeAux dt rest
  | '%' :: 'S' :: rest => (pad2 dt.second).data ++ strftimeAux dt rest
  | c :: rest => c :: strftimeAux dt rest

/-- Model of datetime.strftime for the program's date formats. -/
def strftime (fmt : String) (dt : Datetime) : String := ⟨strftimeAux dt fmt.data⟩

/-! ## Configuration (class Config in pip_search.py) -/

/-- The Config class. The f-string link template built from the package name
is modelled by the function linkDefaultFormat below. -/
structure Config where
  api_url : String := "https://pypi.org/search/"
  page_size : Nat := 2
  sort_by : String := "name"
  date_format : String := "%b %-d, %Y"
  api_released_date_format : String := "%Y-%m-%dT%H:%M:%S%z"
deriving DecidableEq

/-- The module-level config instance. -/
def config : Config := {}

/-- The default detail-link template applied to a package name. -/
def linkDefaultFormat (name : String) : String := "https://pypi.org/project/" ++ name

/-! ## Package (dataclass Package in pip_search.py) -/

/-- The Package dataclass after construction: the four declared fields plus
the two attributes set by __post_init__ (link, released_date). -/
structure Package where
  name : String
  version : String
  released : Option String
  description : Option String
  link : String
  releasedDate : Option Datetime
deriving DecidableEq

/-- Model of Package construction: the generated __init__ stores the fields
and __post_init__ computes link (the default template when the passed link is
falsy) and released_date (strptime of released when released is truthy;
Except.error models the ValueError raised on a malformed released string). -/
def mkPackage (name version : String) (released description link : Option String) :
    Except String Package :=
  let link' :=
    match link with
    | none => linkDefaultFormat name
    | some l => if l.data.isEmpty then linkDefaultFormat name else l
  match released with
  | none => .ok ⟨name, version, none, description, link', none⟩
  | some r =>
    if r.data.isEmpty then .ok ⟨name, version, some r, description, link', none⟩
    else
      match strptime r with
      | none => .error "ValueError: time data does not match format %Y-%m-%dT%H:%M:%S%z"
      | some dt => .ok ⟨name, version, some r, description, link', some dt⟩

/-! ## PackageSet and its json property -/

/-- The PackageSet class holds exactly its list self.packages. -/
abbrev PackageSet := List Package

/-- A Python value as it appears in a Package instance __dict__. -/
inductive PyVal where
  | pstr (s : String)
  | pnone
  | pdatetime (dt : Datetime)
deriving DecidableEq

/-- pkg.__dict__: the instance attributes in insertion order (the dataclass
__init__ fields, then the attributes set by __post_init__). It includes
released_date, which holds a datetime object whenever released was set. -/
def Package.instanceDict (p : Package) : List (String × PyVal) :=
  [("name", .pstr p.name),
   ("version", .pstr p.version),
   ("released", match p.released with
     | some s => PyVal.pstr s
     | none => PyVal.pnone),
   ("description", match p.description with
     | some s => PyVal.pstr s
     | none => PyVal.pnone),
   ("link", .pstr p.link),
   ("released_date", match p.releasedDate with
     | some dt => PyVal.pdatetime dt
     | none => PyVal.pnone)]

/-- Escaping of one character inside a JSON string literal. -/
def jsonEscapeChar (c : Char) : List Char :=
  if c = '"' then ['\\', '"']
  else if c = '\\' then ['\\', '\\']
  else if c = '\n' then ['\\', 'n']
  else if c = '\t' then ['\\', 't']
  else if c = '\r' then ['\\', 'r']
  else [c]

/-- A JSON string literal. -/
def jsonQuote (s : String) : String :=
  ⟨'"' :: s.data.foldr (fun c acc => jsonEscapeChar c ++ acc) ['"']⟩

/-- json.dumps on one __dict__ value: strings and None serialize; a datetime
makes json.dumps raise TypeError. -/
def dumpPyVal : PyVal → Except String String
  | .pstr s => .ok (jsonQuote s)
  | .pnone => .ok "null"
  | .pdatetime _ => .error "TypeError: Object of type datetime is not JSON serializable"

/-- json.dumps key-value rendering of the entries of one __dict__. -/
def dumpEntries : List (String × PyVal) → Except String String
  | [] => .ok ""
  | [(k, v)] => (dumpPyVal v).map (fun sv => jsonQuote k ++ ": " ++ sv)
  | (k, v) :: rest => do
    let sv ← dumpPyVal v
    let sr ← dumpEntries rest
    .ok (jsonQuote k ++ ": " ++ sv ++ ", " ++ sr)

/-- json.dumps rendering of one __dict__ as a JSON object. -/
def dumpDict (d : List (String × PyVal)) : Except String String :=
  (dumpEntries d).map (fun s => "\x7b" ++ s ++ "\x7d")

/-- json.dumps rendering of a list of __dict__s, comma separated. -/
def dumpDictList : List (List (String × PyVal)) → Except String String
  | [] => .ok ""
  | [d] => dumpDict d
  | d :: rest => do
    let sd ← dumpDict d
    let sr ← dumpDictList rest
    .ok (sd ++ ", " ++ sr)

/-- The PackageSet.json property: json.dumps of the list of the packages'
__dict__s; Except.error models the TypeError json.dumps raises when a
__dict__ holds a datetime (any package whose released was set). -/
def PackageSet.json (packages : PackageSet) : Except String String :=
  (dumpDictList (packages.map Package.instanceDict)).map (fun s => "[" ++ s ++ "]")

/-! ## PackageSet.sort_by -/

/-- The sort key for sort_by "name": the lowercased package name. -/
def nameKey (p : Package) : String := pyLower p.name

/-- Boolean ≤ on packages under the "name" sort key. -/
def nameLe (p q : Package) : Bool := strLe (nameKey p) (nameKey q)

/-- All components zero (a version release segment equal to zero). -/
def allZero : List Nat → Bool
  | [] => true
  | a :: as => a == 0 && allZero as

/-- Componentwise ≤ on version release segments, with the shorter segment
implicitly padded with zeros (PEP 440 release comparison: 1.2 equals 1.2.0). -/
def releaseLe : List Nat → List Nat → Bool
  | [], _ => true
  | a :: as, [] => allZero (a :: as)
  | a :: as, b :: bs =>
    if a < b then true
    else if b < a then false
    else releaseLe as bs

/-- The numeric value of a digit run. -/
def digitsVal (cs : List Char) : Nat :=
  cs.foldl (fun n c => n * 10 + (c.toNat - 48)) 0

/-- Split a character list on the dots. -/
def splitDotsAux : List Char → List Char → List (List Char)
  | acc, [] => [acc.reverse]
  | acc, c :: cs =>
    if c = '.' then acc.reverse :: splitDotsAux [] cs else splitDotsAux (c :: acc) cs

/-- Model of pkg_resources.parse_version (a third-party library, not in this
repository) restricted to the dotted numeric release versions the program's
claims exercise: the version is read as its list of numeric components, and
versions compare componentwise under releaseLe. -/
def parse_version (s : String) : List Nat := (splitDotsAux [] s.data).map digitsVal

/-- Boolean ≤ on packages under the "version" sort key. -/
def versionLe (p q : Package) : Bool :=
  releaseLe (parse_version p.version) (parse_version q.version)

/-- Boolean ≤ on packages under the "released" sort key; aware datetimes
compare by UTC instant. The catch-all arm is never consulted: sort_by raises
before comparing when a key is None. -/
def releasedLe (p q : Package) : Bool :=
  match p.releasedDate, q.releasedDate with
  | some a, some b => decide (epochSec a ≤ epochSec b)
  | _, _ => true

/-- PackageSet.sort_by: sorts self.packages in place by the given key, in the
source's branch order (name, released, version, otherwise raise ValueError,
None is a no-op). Python list.sort is a stable sort, modelled by the stable
List.mergeSort; the returned list models the final contents of
self.packages, and .error models the raised exception. Sorting by "released"
computes the key None for a package without a release date, and comparing
None raises TypeError — which happens exactly when the list has at least two
elements and some key is None. -/
def PackageSet.sort_by (key : Option String) (packages : PackageSet) :
    Except String PackageSet :=
  match key with
  | none => .ok packages
  | some k =>
    if k == "name" then .ok (packages.mergeSort nameLe)
    else if k == "released" then
      if packages.length ≤ 1 || packages.all (fun p => p.releasedDate.isSome) then
        .ok (packages.mergeSort releasedLe)
      else
        .error "TypeError: < not supported between instances of NoneType and datetime.datetime"
    else if k == "version" then .ok (packages.mergeSort versionLe)
    else .error ("Invalid sort_by: " ++ k)

/-- The in-place effect of sort_by on the PackageSet object: on success
self.packages holds the sorted list; on an exception it is unchanged, since
sort_by raises before any mutation. The second component is the escaped
exception, if any. -/
def PackageSet.sortByState (key : Option String) (packages : PackageSet) :
    PackageSet × Option String :=
  match PackageSet.sort_by key packages with
  | .ok l => (l, none)
  | .error e => (packages, some e)

/-! ## HTML fragments (the slice of BeautifulSoup the program uses) -/

/-- An HTML node: an element with tag, attributes and children, or text. -/
inductive Node where
  | el (tag : String) (attrs : List (String × String)) (children : List Node)
  | text (s : String)

/-- tag.get(k) / tag[k]: the value of an attribute, if present. -/
def Node.attr (k : String) : Node → Option String
  | .el _ attrs _ => (attrs.find? (fun a => a.1 == k)).map (fun a => a.2)
  | .text _ => none

mutual

/-- The concatenated text content of a node's subtree. -/
def innerTextNode : Node → List Char
  | .text s => s.data
  | .el _ _ cs => innerTextList cs

/-- The concatenated text content of a forest. -/
def innerTextList : List Node → List Char
  | [] => []
  | c :: cs => innerTextNode c ++ innerTextList cs

end

/-- tag.text: the concatenated text of all descendants. -/
def Node.innerText (n : Node) : String := ⟨innerTextNode n⟩

mutual

/-- First node in a subtree (the node itself included) satisfying p, in
document order. -/
def selectNode (p : Node → Bool) : Node → Option Node
  | .text s => if p (.text s) then some (.text s) else none
  | .el t a cs => if p (.el t a cs) then some (.el t a cs) else selectList p cs

/-- First node in a forest satisfying p, in document order. -/
def selectList (p : Node → Bool) : List Node → Option Node
  | [] => none
  | c :: cs =>
    match selectNode p c with
    | some r => some r
    | none => selectList p cs

end

/-- tag.select_one / tag.find: the first descendant matching p (descendants
only — the tag itself is not a candidate). -/
def selectOne (p : Node → Bool) : Node → Option Node
  | .el _ _ cs => selectList p cs
  | .text _ => none

mutual

/-- All nodes of a subtree satisfying p, in document order. -/
def selectAllNode (p : Node → Bool) : Node → List Node
  | .text s => if p (.text s) then [.text s] else []
  | .el t a cs => (if p (.el t a cs) then [Node.el t a cs] else []) ++ selectAllList p cs

/-- All nodes of a forest satisfying p, in document order. -/
def selectAllList (p : Node → Bool) : List Node → List Node
  | [] => []
  | c :: cs => selectAllNode p c ++ selectAllList p cs

end

/-- soup.select: all descendants matching p, in document order. -/
def selectAll (p : Node → Bool) : Node → List Node
  | .el _ _ cs => selectAllList p cs
  | .text _ => []

/-- The CSS selector tag[class*=sub]: an element with the given tag whose
class attribute contains sub as a substring. -/
def matchesTagClass (tag sub : String) (n : Node) : Bool :=
  match n with
  | .el t _ _ =>
    t == tag &&
      (match Node.attr "class" n with
       | some cls => containsSub cls sub
       | none => false)
  | .text _ => false

/-- Element-with-tag test, for BeautifulSoup .find(tag). -/
def matchesTag (tag : String) (n : Node) : Bool :=
  match n with
  | .el t _ _ => t == tag
  | .text _ => false

/-! ## urljoin (urllib.parse, standard library) -/

/-- Characters of a URL up to the first slash. -/
def takeUntilSlash : List Char → List Char
  | [] => []
  | c :: cs => if c = '/' then [] else c :: takeUntilSlash cs

/-- The scheme-and-separator head of a URL, when present. -/
def splitScheme : List Char → Option (List Char × List Char)
  | [] => none
  | ':' :: '/' :: '/' :: rest => some ([':', '/', '/'], rest)
  | c :: cs =>
    match splitScheme cs with
    | some (pre, rest) => some (c :: pre, rest)
    | none => none

/-- The scheme and host of a URL (everything before the path). -/
def schemeHost (base : String) : String :=
  match splitScheme base.data with
  | some (pre, rest) => ⟨pre ++ takeUntilSlash rest⟩
  | none => base

/-- The URL up to and including its last slash. -/
def dirOf (base : String) : String :=
  ⟨(base.data.reverse.dropWhile (fun c => c ≠ '/')).reverse⟩

/-- Model of urllib.parse.urljoin for the shapes this program meets: a None
or empty url yields the base unchanged; an absolute URL replaces the base; a
root-relative path resolves against the base's scheme and host; any other
path is appended to the base's directory. -/
def urljoin (base : String) (url : Option String) : String :=
  match url with
  | none => base
  | some u =>
    if u.data.isEmpty then base
    else if containsSub u "://" then u
    else
      match u.data with
      | '/' :: _ => schemeHost base ++ u
      | _ => dirOf base ++ u

/-! ## PyPiAPI.parser -/

/-- PyPiAPI.parser: extract link, name, version, released timestamp and
description from one result snippet, then construct the Package. Each
Except.error models the exception Python raises at the corresponding step:
select_one returning None followed by .text or .find (AttributeError),
find("time") returning None followed by subscripting (TypeError), a missing
datetime attribute (KeyError), and the ValueError from Package construction
on a malformed timestamp. -/
def PyPiAPI.parser (cfg : Config) (item : Node) : Except String Package :=
  let link := urljoin cfg.api_url (Node.attr "href" item)
  match selectOne (matchesTagClass "span" "name") item with
  | none => .error "AttributeError: NoneType object has no attribute text"
  | some nameEl =>
    match selectOne (matchesTagClass "span" "version") item with
    | none => .error "AttributeError: NoneType object has no attribute text"
    | some versionEl =>
      match selectOne (matchesTagClass "span" "released") item with
      | none => .error "AttributeError: NoneType object has no attribute find"
      | some releasedEl =>
        match selectOne (matchesTag "time") releasedEl with
        | none => .error "TypeError: NoneType object is not subscriptable"
        | some timeEl =>
          match Node.attr "datetime" timeEl with
          | none => .error "KeyError: datetime"
          | some released =>
            match selectOne (matchesTagClass "p" "description") item with
            | none => .error "AttributeError: NoneType object has no attribute text"
            | some descriptionEl =>
              mkPackage (pyStrip nameEl.innerText) (pyStrip versionEl.innerText)
                (some released) (some (pyStrip descriptionEl.innerText)) (some link)

/-! ## PyPiAPI.search -/

/-- The outcome of one requests.get for a results page: either the raised
transport exception (timeout, connection error), or a response carrying its
HTTP status code and parsed HTML body. requests.get does not raise on a
non-2xx status. -/
inductive FetchOutcome where
  | transportError (msg : String)
  | response (status : Nat) (body : Node)

/-- soup.select with the snippet selector a[class*=snippet]. -/
def selectSnippets (body : Node) : List Node :=
  selectAll (matchesTagClass "a" "snippet") body

/-- The page loop of PyPiAPI.search over an explicit page list: each page is
fetched in order; a transport exception aborts the generator after the
earlier pages' snippets were already yielded (second component: the escaped
exception); a response contributes its snippet elements whatever its status,
possibly none. -/
def searchPages (fetch : Nat → FetchOutcome) : List Nat → List Node × Option String
  | [] => ([], none)
  | p :: rest =>
    match fetch p with
    | .transportError m => ([], some m)
    | .response _ body =>
      let r := searchPages fetch rest
      (selectSnippets body ++ r.1, r.2)

/-- PyPiAPI.search: pages 1 .. config.page_size, each fetched by one
requests.get with params q (fixed by the query baked into fetch) and page. -/
def PyPiAPI.search (cfg : Config) (fetch : Nat → FetchOutcome) :
    List Node × Option String :=
  searchPages fetch (List.range' 1 cfg.page_size)

/-! ## PipSearch construction -/

/-- The orchestrator's backend after construction. -/
inductive Backend where
  | pyPiAPI (cfg : Config)

/-- The result of PipSearch.__init__, together with the HTTP requests issued
during construction — always none, since the constructor body performs no
request (requests.get is reached only from PyPiAPI.search). -/
structure InitOutcome where
  result : Except String Backend
  httpRequests : List (String × Nat)

/-- PipSearch.__init__: accepts exactly the PyPi endpoint and otherwise
raises NotImplementedError before any I/O. -/
def PipSearch.init (cfg : Config) : InitOutcome :=
  if cfg.api_url == "https://pypi.org/search/" then
    { result := .ok (.pyPiAPI cfg), httpRequests := [] }
  else
    { result := .error "NotImplementedError: Currently only PyPi API is supported, but you can contribute to add support for other APIs"
    , httpRequests := [] }

/-! ## Local inventory (utils.py) -/

/-- The outcome of subprocess.run of pip list --format json with captured
output: a launch failure (the OSError subprocess.run raises), or completion
with the decoded stdout — empty when the pip invocation failed. -/
inductive CommandOutcome where
  | launchFailure (msg : String)
  | completed (stdout : String)

/-- JSON whitespace. -/
def jsonWs (c : Char) : Bool := c = ' ' || c = '\t' || c = '\n' || c = '\r'

/-- Drop leading JSON whitespace. -/
def skipWs : List Char → List Char
  | [] => []
  | c :: cs => if jsonWs c then skipWs cs else c :: cs

/-- A JSON string literal without escapes (pip names and versions contain
none), returning its content and the rest. -/
def jsonStrAux (acc : List Char) : List Char → Option (String × List Char)
  | [] => none
  | '"' :: rest => some (⟨acc.reverse⟩, rest)
  | c :: rest => jsonStrAux (c :: acc) rest

/-- A JSON string literal, opening quote included. -/
def jsonStr : List Char → Option (String × List Char)
  | '"' :: rest => jsonStrAux [] rest
  | _ => none

/-- The members of a JSON object after its opening brace, as key-value
string pairs; fuel keeps the recursion structural. -/
def jsonObjMembers : Nat → List Char → Option (List (String × String) × List Char)
  | 0, _ => none
  | fuel + 1, cs =>
    match jsonStr (skipWs cs) with
    | none => none
    | some (k, r1) =>
      match skipWs r1 with
      | ':' :: r2 =>
        match jsonStr (skipWs r2) with
        | none => none
        | some (v, r3) =>
          match skipWs r3 with
          | ',' :: r4 =>
            match jsonObjMembers fuel r4 with
            | some (rest, r5) => some ((k, v) :: rest, r5)
            | none => none
          | '\x7d' :: r4 => some ([(k, v)], r4)
          | _ => none
      | _ => none

/-- One flat JSON object with string values. -/
def jsonObj (fuel : Nat) (cs : List Char) : Option (List (String × String) × List Char) :=
  match skipWs cs with
  | '\x7b' :: r1 =>
    match skipWs r1 with
    | '\x7d' :: r2 => some ([], r2)
    | _ => jsonObjMembers fuel r1
  | _ => none

/-- The elements of a JSON array of objects after its opening bracket. -/
def jsonArrElems : Nat → List Char → Option (List (List (String × String)) × List Char)
  | 0, _ => none
  | fuel + 1, cs =>
    match jsonObj fuel cs with
    | none => none
    | some (o, r1) =>
      match skipWs r1 with
      | ',' :: r2 =>
        match jsonArrElems fuel r2 with
        | some (os, r3) => some (o :: os, r3)
        | none => none
      | ']' :: r2 => some ([o], r2)
      | _ => none

/-- Model of json.loads restricted to the shape pip list --format json
emits: an array of flat objects with string values. Malformed input — the
empty string a failed pip run leaves in stdout included — yields the
JSONDecodeError (a ValueError) that json.loads raises. -/
def jsonLoadsPipList (s : String) : Except String (List (List (String × String))) :=
  match skipWs s.data with
  | '[' :: r1 =>
    match skipWs r1 with
    | ']' :: r2 =>
      if (skipWs r2).isEmpty then .ok [] else .error "Extra data"
    | _ =>
      match jsonArrElems (s.data.length + 1) r1 with
      | some (os, r2) => if (skipWs r2).isEmpty then .ok os else .error "Extra data"
      | none => .error "Expecting value"
  | _ => .error "Expecting value: line 1 column 1 (char 0)"

/-- The module-level LOCAL_PIP_LIST initialization in utils.py: run the pip
list command, decode stdout, json.loads it. The exceptions escape: they
abort the import of utils and with it the whole run. -/
def loadLocalPipList : CommandOutcome → Except String (List (List (String × String)))
  | .launchFailure m => .error m
  | .completed out => jsonLoadsPipList out

/-- Python dict access d[k] restricted to presence: the value when the key
is present. -/
def dictGet (d : List (String × String)) (k : String) : Option String :=
  (d.find? (fun e => e.1 == k)).map (fun e => e.2)

/-- utils.check_version: the version of the first LOCAL_PIP_LIST entry whose
name equals the package name, or False — modelled none — when no entry
matches. Entries are the flat string dicts pip emits, which always carry
name and version keys. -/
def check_version (localPipList : List (List (String × String))) (package_name : String) :
    Option String :=
  match localPipList.find? (fun lp => dictGet lp "name" == some package_name) with
  | some lp => dictGet lp "version"
  | none => none

/-! ## Renderer -/

/-- One rendered table row: the four cell strings passed to add_row. -/
structure RichRow where
  package : String
  version : String
  released : String
  description : String
deriving DecidableEq

/-- The rich table as constructed: title, column headers, rows. -/
structure RichTableData where
  title : String
  columns : List String
  rows : List RichRow
deriving DecidableEq

/-- An uppercase hexadecimal digit. -/
def hexDigit (n : Nat) : Char := if n < 10 then digitChar n else Char.ofNat (55 + n)

/-- quote_plus on one character: space becomes +, alphanumerics and _.-~
pass through, other ASCII characters are percent-encoded. -/
def quotePlusChar (c : Char) : List Char :=
  if c = ' ' then ['+']
  else if c.isAlphanum || c = '_' || c = '.' || c = '-' || c = '~' then [c]
  else ['%', hexDigit (c.toNat / 16 % 16), hexDigit (c.toNat % 16)]

/-- urlencode of the single-entry query mapping: q=quote_plus(query). -/
def urlencodeQ (query : String) : String :=
  ⟨'q' :: '=' :: query.data.foldr (fun c acc => quotePlusChar c ++ acc) []⟩

/-- The version cell computed in _rich_table's loop: the in-place rewrite of
package.version against the local inventory lookup — an exact match gains
the == marker, an installed different version gains the upgrade arrow from
the available to the installed version, an uninstalled package keeps its raw
version. -/
def annotateVersion (localPipList : List (List (String × String))) (p : Package) : String :=
  match check_version localPipList p.name with
  | some cv =>
    if cv == p.version then "[bold cyan]" ++ p.version ++ " ==[/]"
    else p.version ++ " > [bold purple]" ++ cv ++ "[/]"
  | none => p.version

/-- One iteration of _rich_table's loop: the row added for a package, or the
AttributeError raised by package.released_date.strftime when released_date
is None. A None description renders as an empty cell. -/
def packageRow (cfg : Config) (localPipList : List (List (String × String))) (p : Package) :
    Except String RichRow :=
  let ver := annotateVersion localPipList p
  match p.releasedDate with
  | none => .error "AttributeError: NoneType object has no attribute strftime"
  | some dt =>
    .ok { package := "[link=" ++ p.link ++ "]:open_file_folder:[/link] " ++ p.name
        , version := ver
        , released := strftime cfg.date_format dt
        , description := p.description.getD "" }

/-- The row loop: rows in order, stopped by the first raised exception. -/
def mapRows (f : Package → Except String RichRow) : List Package → Except String (List RichRow)
  | [] => .ok []
  | p :: ps =>
    match f p with
    | .error e => .error e
    | .ok r =>
      match mapRows f ps with
      | .error e => .error e
      | .ok rs => .ok (r :: rs)

/-- _rich_table: builds the table whose title embeds the effective search
URL for the query, with the four column headers and one row per package, and
prints it. The print happens only after every row was added, so a failing
row produces no output at all. -/
def rich_table (cfg : Config) (localPipList : List (List (String × String)))
    (packages : PackageSet) (query : String) : Except String RichTableData :=
  match mapRows (packageRow cfg localPipList) packages with
  | .error e => .error e
  | .ok rows =>
    .ok { title := "[not italic]:snake:[/] [bold][magenta]" ++ cfg.api_url ++ "?"
            ++ urlencodeQ query ++ "[/] [not italic]:snake:[/]"
        , columns := ["Package", "Version", "Released", "Description"]
        , rows := rows }

/-- What one render run writes to standard output. -/
inductive Rendered where
  | table (t : RichTableData)
  | text (s : String)
  | nothing
deriving DecidableEq

/-- PipSearch.render_set: format "rich" prints the rich table and "json"
prints the json property's string; any other format — "plain" included,
although the command line advertises it as a choice — matches no branch and
prints nothing at all. -/
def PipSearch.render_set (cfg : Config) (localPipList : List (List (String × String)))
    (packages : PackageSet) (query format : String) : Except String Rendered :=
  if format == "rich" then
    match rich_table cfg localPipList packages query with
    | .ok t => .ok (.table t)
    | .error e => .error e
  else if format == "json" then
    match PackageSet.json packages with
    | .ok s => .ok (.text s)
    | .error e => .error e
  else .ok .nothing

/-! ## Order properties of the sort comparators -/

theorem strLeAux_refl : ∀ as, strLeAux as as = true
  | [] => rfl
  | a :: as => by simp [strLeAux, strLeAux_refl as]

theorem strLeAux_total : ∀ as bs, (strLeAux as bs || strLeAux bs as) = true
  | [], _ => by simp [strLeAux]
  | _ :: _, [] => by simp [strLeAux]
  | a :: as, b :: bs => by
    simp only [strLeAux]
    rcases Nat.lt_trichotomy a.toNat b.toNat with h | h | h
    · simp [h]
    · simp [h, strLeAux_total as bs]
    · simp [h, Nat.lt_asymm h]

theorem strLeAux_trans :
    ∀ as bs cs, strLeAux as bs = true → strLeAux bs cs = true → strLeAux as cs = true
  | [], _, _ => by simp [strLeAux]
  | _ :: _, [], _ => by simp [strLeAux]
  | _ :: _, _ :: _, [] => by intro _ h2; simp [strLeAux] at h2
  | a :: as, b :: bs, c :: cs => by
    simp only [strLeAux]
    intro h1 h2
    rcases Nat.lt_trichotomy a.toNat b.toNat with hab | hab | hab
    · rcases Nat.lt_trichotomy b.toNat c.toNat with hbc | hbc | hbc
      · simp [Nat.lt_trans hab hbc]
      · simp [hbc ▸ hab]
      · simp [Nat.lt_asymm hbc, hbc] at h2
    · rcases Nat.lt_trichotomy b.toNat c.toNat with hbc | hbc | hbc
      · simp [hab ▸ hbc]
      · have hac : a.toNat = c.toNat := hab.trans hbc
        simp only [hab, hbc, Nat.lt_irrefl, if_false] at h1 h2
        simp [hac, strLeAux_trans as bs cs h1 h2]
      · simp [Nat.lt_asymm hbc, hbc] at h2
    · simp [Nat.lt_asymm hab, hab] at h1

theorem allZero_releaseLe : ∀ as bs, allZero as = true → releaseLe as bs = true
  | [], _, _ => rfl
  | _ :: _, [], h => h
  | a :: as, b :: bs, h => by
    simp only [allZero, Bool.and_eq_true, beq_iff_eq] at h
    obtain ⟨ha, has⟩ := h
    subst ha
    simp only [releaseLe]
    rcases Nat.eq_zero_or_pos b with hb | hb
    · subst hb
      simp [allZero_releaseLe as bs has]
    · simp [hb]

theorem releaseLe_allZero : ∀ as bs, releaseLe as bs = true → allZero bs = true → allZero as = true
  | [], _, _, _ => rfl
  | _ :: _, [], h, _ => h
  | a :: as, b :: bs, h1, h2 => by
    simp only [allZero, Bool.and_eq_true, beq_iff_eq] at h2 ⊢
    obtain ⟨hb, hbs⟩ := h2
    subst hb
    simp only [releaseLe, Nat.not_lt_zero, if_false] at h1
    rcases Nat.eq_zero_or_pos a with ha | ha
    · subst ha
      simp only [Nat.lt_irrefl, if_false] at h1
      exact ⟨rfl, releaseLe_allZero as bs h1 hbs⟩
    · simp [ha] at h1

theorem releaseLe_refl : ∀ as, releaseLe as as = true
  | [] => rfl
  | a :: as => by simp [releaseLe, releaseLe_refl as]

theorem releaseLe_total : ∀ as bs, (releaseLe as bs || releaseLe bs as) = true
  | [], _ => by simp [releaseLe]
  | _ :: _, [] => by simp [releaseLe]
  | a :: as, b :: bs => by
    simp only [releaseLe]
    rcases Nat.lt_trichotomy a b with h | h | h
    · simp [h]
    · subst h
      simp [releaseLe_total as bs]
    · simp [h, Nat.lt_asymm h]

theorem releaseLe_trans :
    ∀ as bs cs, releaseLe as bs = true → releaseLe bs cs = true → releaseLe as cs = true
  | [], _, _ => by simp [releaseLe]
  | a :: as, [], cs => fun h1 _ => allZero_releaseLe (a :: as) cs h1
  | a :: as, b :: bs, [] => fun h1 h2 => releaseLe_allZero (a :: as) (b :: bs) h1 h2
  | a :: as, b :: bs, c :: cs => by
    simp only [releaseLe]
    intro h1 h2
    rcases Nat.lt_trichotomy a b with hab | hab | hab
    · rcases Nat.lt_trichotomy b c with hbc | hbc | hbc
      · simp [Nat.lt_trans hab hbc]
      · simp [hbc ▸ hab]
      · simp [Nat.lt_asymm hbc, hbc] at h2
    · subst hab
      rcases Nat.lt_trichotomy a c with hac | hac | hac
      · simp [hac]
      · subst hac
        simp only [Nat.lt_irrefl, if_false] at h1 h2 ⊢
        exact releaseLe_trans as bs cs h1 h2
      · simp [Nat.lt_asymm hac, hac] at h2
    · simp [Nat.lt_asymm hab, hab] at h1

theorem nameLe_total (p q : Package) : (nameLe p q || nameLe q p) = true :=
  strLeAux_total _ _

theorem nameLe_trans (p q r : Package) :
    nameLe p q = true → nameLe q r = true → nameLe p r = true :=
  strLeAux_trans _ _ _

theorem nameLe_of_key_eq {p q : Package} (h : nameKey p = nameKey q) : nameLe p q = true := by
  unfold nameLe strLe
  rw [h]
  exact strLeAux_refl _

theorem versionLe_total (p q : Package) : (versionLe p q || versionLe q p) = true :=
  releaseLe_total _ _

theorem versionLe_trans (p q r : Package) :
    versionLe p q = true → versionLe q r = true → versionLe p r = true :=
  releaseLe_trans _ _ _

/-! ## Claim C1 -/

/-- C1: the claim says json() serialization round-trips for every Package
Set. The code is wrong: pkg.__dict__ contains released_date, a datetime
object, so json.dumps raises TypeError for every package whose released
field was set — exactly the packages the result parser produces. This
theorem evaluates the code at a failing input: the package constructed from
a normal parsed result (with a released timestamp) makes the json property
raise instead of serializing. -/
theorem C1_json_raises_on_released_package :
    mkPackage "pip-search" "0.0.12" (some "2023-03-03T00:00:00+0000")
        (some "A command to search pypi") none
      = Except.ok
          (Package.mk "pip-search" "0.0.12" (some "2023-03-03T00:00:00+0000")
            (some "A command to search pypi") "https://pypi.org/project/pip-search"
            (some (Datetime.mk 2023 3 3 0 0 0 0)))
    ∧ PackageSet.json
        [Package.mk "pip-search" "0.0.12" (some "2023-03-03T00:00:00+0000")
          (some "A command to search pypi") "https://pypi.org/project/pip-search"
          (some (Datetime.mk 2023 3 3 0 0 0 0))]
      = Except.error "TypeError: Object of type datetime is not JSON serializable" :=
  ⟨rfl, rfl⟩

/-! ## Claim C2 -/

/-- C2: constructing PipSearch with a configuration whose endpoint differs
from the single supported backend endpoint raises NotImplementedError (the
spec's UnsupportedBackend) immediately, and no HTTP request is issued before
or during the failure. -/
theorem C2_unsupported_backend (cfg : Config)
    (h : cfg.api_url ≠ "https://pypi.org/search/") :
    (PipSearch.init cfg).result
      = Except.error "NotImplementedError: Currently only PyPi API is supported, but you can contribute to add support for other APIs"
    ∧ (PipSearch.init cfg).httpRequests = [] := by
  simp [PipSearch.init, beq_eq_false_iff_ne.mpr h]

/-- C2 witness, at the unsupported endpoint the repository's own test uses. -/
theorem C2_witness :
    (PipSearch.init { api_url := "not_implemented" }).result
      = Except.error "NotImplementedError: Currently only PyPi API is supported, but you can contribute to add support for other APIs"
    ∧ (PipSearch.init { api_url := "not_implemented" }).httpRequests = [] :=
  C2_unsupported_backend { api_url := "not_implemented" } (by decide)

/-! ## Claim C5 -/

/-- C5: the claim says format "plain" emits unstyled text carrying the
table's information. The code is wrong: render_set handles only "rich" and
"json", so "plain" — a choice the command line explicitly advertises for
--format — matches no branch and renders nothing at all, for every package
set and query. -/
theorem C5_plain_renders_nothing (cfg : Config)
    (localPipList : List (List (String × String))) (packages : PackageSet) (query : String) :
    PipSearch.render_set cfg localPipList packages query "plain" = Except.ok Rendered.nothing :=
  rfl

/-! ## Claim C6 -/

/-- C6 counterexample: a failed pip invocation leaves stdout empty, and the
module-level json.loads of that output raises instead of yielding the empty
mapping the claim promises — the import of utils, and with it the run,
fails. -/
theorem C6_counterexample :
    loadLocalPipList (CommandOutcome.completed "")
      ≠ Except.ok ([] : List (List (String × String))) :=
  fun h => Except.noConfusion h

/-- C6 amended: a Local Inventory load failure is fatal rather than
degrading: a subprocess launch failure propagates, and unparsable stdout —
the empty stdout of a failed pip run included — raises json.JSONDecodeError
at module import; the mapping never silently comes out empty. -/
theorem C6_amended :
    loadLocalPipList (CommandOutcome.completed "")
      = Except.error "Expecting value: line 1 column 1 (char 0)"
    ∧ (∀ m, loadLocalPipList (CommandOutcome.launchFailure m) = Except.error m)
    ∧ loadLocalPipList (CommandOutcome.completed "pip broke")
      = Except.error "Expecting value: line 1 column 1 (char 0)" :=
  ⟨rfl, fun _ => rfl, rfl⟩

/-! ## Claim C9 -/

/-- C9: sort_by "name" sorts the package list ascending by the lowercased
name; the sort is stable — every lowercased-name fiber of the output equals
the corresponding fiber of the input, so packages whose lowercased names are
equal keep their relative input order; applying sort_by "name" a second time
leaves the order identical; and sort_by with key None is a no-op preserving
arrival order. -/
theorem C9_sort_by_name (ps : PackageSet) :
    PackageSet.sort_by (some "name") ps = Except.ok (ps.mergeSort nameLe)
    ∧ (ps.mergeSort nameLe).Pairwise (fun p q => nameLe p q = true)
    ∧ (∀ key : String,
        (ps.mergeSort nameLe).filter (fun p => nameKey p == key)
          = ps.filter (fun p => nameKey p == key))
    ∧ PackageSet.sort_by (some "name") (ps.mergeSort nameLe)
        = Except.ok (ps.mergeSort nameLe)
    ∧ PackageSet.sort_by none ps = Except.ok ps := by
  refine ⟨rfl, List.sorted_mergeSort nameLe_trans nameLe_total ps, ?_, ?_, rfl⟩
  · intro key
    have hc : (ps.filter (fun p => nameKey p == key)).Pairwise
        (fun p q => nameLe p q = true) := by
      apply List.pairwise_of_forall_mem_list
      intro a ha b hb
      exact nameLe_of_key_eq
        ((eq_of_beq (List.mem_filter.mp ha).2).trans
          (eq_of_beq (List.mem_filter.mp hb).2).symm)
    have hsub : List.Sublist (ps.filter (fun p => nameKey p == key)) (ps.mergeSort nameLe) :=
      List.sublist_mergeSort nameLe_trans nameLe_total hc (List.filter_sublist ps)
    have hself : (ps.filter (fun p => nameKey p == key)).filter (fun p => nameKey p == key)
        = ps.filter (fun p => nameKey p == key) :=
      List.filter_eq_self.mpr (fun a ha => (List.mem_filter.mp ha).2)
    have hsub2 : List.Sublist (ps.filter (fun p => nameKey p == key))
        ((ps.mergeSort nameLe).filter (fun p => nameKey p == key)) :=
      hself ▸ hsub.filter (fun p => nameKey p == key)
    have hperm : ((ps.mergeSort nameLe).filter (fun p => nameKey p == key)).Perm
        (ps.filter (fun p => nameKey p == key)) :=
      (List.mergeSort_perm ps nameLe).filter _
    exact (hsub2.eq_of_length hperm.length_eq.symm).symm
  · have h := List.mergeSort_of_sorted
      (List.sorted_mergeSort nameLe_trans nameLe_total ps)
    calc PackageSet.sort_by (some "name") (ps.mergeSort nameLe)
        = Except.ok ((ps.mergeSort nameLe).mergeSort nameLe) := rfl
      _ = Except.ok (ps.mergeSort nameLe) := by rw [h]

/-! ## Claim C8 -/

/-- C8: sort_by "version" orders packages ascending by the parsed version
with numeric componentwise comparison — in particular the versions 1.2.0,
1.10.0, 2.0.0 come out in exactly that order — and any sort key outside
name, version, released and None raises ValueError ("Invalid sort_by: ...",
the spec's InvalidSortKey) leaving the packages in their previous order. -/
theorem C8_version_sort_and_invalid_key :
    (∀ packages : PackageSet,
      ∃ l, PackageSet.sort_by (some "version") packages = Except.ok l
        ∧ l.Pairwise (fun p q => versionLe p q = true)
        ∧ l.Perm packages)
    ∧ PackageSet.sort_by (some "version")
        [⟨"a", "1.10.0", none, none, "L", none⟩,
         ⟨"b", "2.0.0", none, none, "L", none⟩,
         ⟨"c", "1.2.0", none, none, "L", none⟩]
      = Except.ok
        [⟨"c", "1.2.0", none, none, "L", none⟩,
         ⟨"a", "1.10.0", none, none, "L", none⟩,
         ⟨"b", "2.0.0", none, none, "L", none⟩]
    ∧ (∀ k : String, k ≠ "name" → k ≠ "released" → k ≠ "version" →
        ∀ packages : PackageSet,
          PackageSet.sortByState (some k) packages
            = (packages, some ("Invalid sort_by: " ++ k))) := by
  refine ⟨?_, ?_, ?_⟩
  · intro packages
    exact ⟨packages.mergeSort versionLe, rfl,
      List.sorted_mergeSort versionLe_trans versionLe_total packages,
      List.mergeSort_perm packages versionLe⟩
  · simp +decide [PackageSet.sort_by, List.mergeSort, List.merge]
  · intro k h1 h2 h3 packages
    simp [PackageSet.sortByState, PackageSet.sort_by,
      beq_eq_false_iff_ne.mpr h1, beq_eq_false_iff_ne.mpr h2, beq_eq_false_iff_ne.mpr h3]

/-- C8 witness: an unrecognized key raises and the order is unchanged. -/
theorem C8_witness :
    PackageSet.sortByState (some "author")
        [⟨"a", "1.10.0", none, none, "L", none⟩]
      = ([⟨"a", "1.10.0", none, none, "L", none⟩], some "Invalid sort_by: author") :=
  C8_version_sort_and_invalid_key.2.2 "author" (by decide) (by decide) (by decide)
    [⟨"a", "1.10.0", none, none, "L", none⟩]

/-! ## Claim C10 -/

theorem mapRows_error_of_mem (f : Package → Except String RichRow) :
    ∀ (ps : List Package) (p : Package), p ∈ ps → (∃ e, f p = Except.error e) →
      ∃ e, mapRows f ps = Except.error e
  | [], p, hp, _ => absurd hp (List.not_mem_nil p)
  | q :: ps, p, hp, he => by
    rcases List.mem_cons.mp hp with rfl | hp'
    · obtain ⟨e, hfe⟩ := he
      exact ⟨e, by simp [mapRows, hfe]⟩
    · cases hq : f q with
      | error e => exact ⟨e, by simp [mapRows, hq]⟩
      | ok r =>
        obtain ⟨e, hrec⟩ := mapRows_error_of_mem f ps p hp' he
        exact ⟨e, by simp [mapRows, hq, hrec]⟩

theorem mapRows_ok_forall (f : Package → Except String RichRow) :
    ∀ (ps : List Package) (rs : List RichRow), mapRows f ps = Except.ok rs →
      ∀ p ∈ ps, ∃ r, f p = Except.ok r
  | [], _, _, p, hp => absurd hp (List.not_mem_nil p)
  | q :: ps, rs, h, p, hp => by
    rcases hq : f q with _ | r
    · simp [mapRows, hq] at h
    · rcases hrec : mapRows f ps with _ | rs'
      · simp [mapRows, hq, hrec] at h
      · rcases List.mem_cons.mp hp with rfl | hp'
        · exact ⟨r, hq⟩
        · exact mapRows_ok_forall f ps rs' hrec p hp'

/-- C10: rich rendering fails whenever a package in the set lacks a release
timestamp — the unconditional strftime on the None released_date raises —
and succeeds only when every package in the set carries one. -/
theorem C10_rich_requires_released (cfg : Config)
    (localPipList : List (List (String × String))) (packages : PackageSet) (query : String) :
    (∀ p ∈ packages, p.releasedDate = none →
      ∃ e, PipSearch.render_set cfg localPipList packages query "rich" = Except.error e)
    ∧ (∀ t, PipSearch.render_set cfg localPipList packages query "rich" = Except.ok t →
        ∀ p ∈ packages, p.releasedDate.isSome) := by
  constructor
  · intro p hp hnone
    obtain ⟨e, he⟩ := mapRows_error_of_mem (packageRow cfg localPipList) packages p hp
      ⟨"AttributeError: NoneType object has no attribute strftime",
        by simp [packageRow, hnone]⟩
    exact ⟨e, by simp [PipSearch.render_set, rich_table, he]⟩
  · intro t ht p hp
    rcases hrows : mapRows (packageRow cfg localPipList) packages with e | rs
    · simp [PipSearch.render_set, rich_table, hrows] at ht
    · obtain ⟨r, hr⟩ := mapRows_ok_forall (packageRow cfg localPipList) packages rs hrows p hp
      rcases hd : p.releasedDate with _ | dt
      · simp [packageRow, hd] at hr
      · simp [hd]

/-- C10 witness: a one-package set whose package has no release date makes
rich rendering fail. -/
theorem C10_witness :
    ∃ e, PipSearch.render_set config [] [⟨"foo", "1.0.0", none, none, "L", none⟩] "q" "rich"
      = Except.error e :=
  (C10_rich_requires_released config [] [⟨"foo", "1.0.0", none, none, "L", none⟩] "q").1
    ⟨"foo", "1.0.0", none, none, "L", none⟩ (List.mem_singleton_self _) rfl

/-! ## Claim C7 -/

theorem mapRows_version_map (cfg : Config) (inv : List (List (String × String))) :
    ∀ (ps : List Package) (rs : List RichRow),
      mapRows (packageRow cfg inv) ps = Except.ok rs →
      rs.map RichRow.version = ps.map (annotateVersion inv)
  | [], rs, h => by
    simp only [mapRows, Except.ok.injEq] at h
    subst h
    rfl
  | p :: ps, rs, h => by
    rcases hd : p.releasedDate with _ | dt
    · simp [mapRows, packageRow, hd] at h
    · rcases hrec : mapRows (packageRow cfg inv) ps with e | rs'
      · simp [mapRows, packageRow, hd, hrec] at h
      · simp only [mapRows, packageRow, hd, hrec, Except.ok.injEq] at h
        subst h
        simp [mapRows_version_map cfg inv ps rs' hrec]

/-- C7: in the rendered table each package's version cell is its annotated
version, and the annotation follows the inventory lookup exactly: an
inventory entry equal to the package's version yields the == exact-match
marker, an entry with a different version yields the available version
followed by the upgrade annotation naming the installed version, and a name
absent from the inventory leaves the raw version unannotated. -/
theorem C7_version_cells (cfg : Config) (localPipList : List (List (String × String)))
    (packages : PackageSet) (query : String) (t : RichTableData)
    (h : rich_table cfg localPipList packages query = Except.ok t) :
    t.rows.map RichRow.version = packages.map (annotateVersion localPipList)
    ∧ ∀ p : Package,
        (check_version localPipList p.name = some p.version →
          annotateVersion localPipList p = "[bold cyan]" ++ p.version ++ " ==[/]")
        ∧ (∀ v, check_version localPipList p.name = some v → v ≠ p.version →
            annotateVersion localPipList p = p.version ++ " > [bold purple]" ++ v ++ "[/]")
        ∧ (check_version localPipList p.name = none →
            annotateVersion localPipList p = p.version) := by
  constructor
  · rcases hrows : mapRows (packageRow cfg localPipList) packages with e | rs
    · simp [rich_table, hrows] at h
    · simp only [rich_table, hrows, Except.ok.injEq] at h
      subst h
      exact mapRows_version_map cfg localPipList packages rs hrows
  · intro p
    refine ⟨?_, ?_, ?_⟩
    · intro hcv
      simp [annotateVersion, hcv]
    · intro v hcv hne
      simp [annotateVersion, hcv, beq_eq_false_iff_ne.mpr hne]
    · intro hcv
      simp [annotateVersion, hcv]

/-- C7 witness: a three-package table against the inventory mapping foo to
1.0.0 — an exact match, an upgrade, and an uninstalled package. -/
theorem C7_witness :
    (RichTableData.mk
        "[not italic]:snake:[/] [bold][magenta]https://pypi.org/search/?q=q[/] [not italic]:snake:[/]"
        ["Package", "Version", "Released", "Description"]
        [⟨"[link=L]:open_file_folder:[/link] foo", "[bold cyan]1.0.0 ==[/]", "Mar 3, 2023", "d"⟩,
         ⟨"[link=L]:open_file_folder:[/link] foo", "2.0.0 > [bold purple]1.0.0[/]", "Mar 3, 2023", "d"⟩,
         ⟨"[link=L]:open_file_folder:[/link] bar", "1.0.0", "Mar 3, 2023", "d"⟩]).rows.map
        RichRow.version
      = [⟨"foo", "1.0.0", some "2023-03-03T00:00:00+0000", some "d", "L",
            some ⟨2023, 3, 3, 0, 0, 0, 0⟩⟩,
         ⟨"foo", "2.0.0", some "2023-03-03T00:00:00+0000", some "d", "L",
            some ⟨2023, 3, 3, 0, 0, 0, 0⟩⟩,
         (⟨"bar", "1.0.0", some "2023-03-03T00:00:00+0000", some "d", "L",
            some ⟨2023, 3, 3, 0, 0, 0, 0⟩⟩ : Package)].map
          (annotateVersion [[("name", "foo"), ("version", "1.0.0")]]) :=
  (C7_version_cells config [[("name", "foo"), ("version", "1.0.0")]]
    [⟨"foo", "1.0.0", some "2023-03-03T00:00:00+0000", some "d", "L",
        some ⟨2023, 3, 3, 0, 0, 0, 0⟩⟩,
     ⟨"foo", "2.0.0", some "2023-03-03T00:00:00+0000", some "d", "L",
        some ⟨2023, 3, 3, 0, 0, 0, 0⟩⟩,
     ⟨"bar", "1.0.0", some "2023-03-03T00:00:00+0000", some "d", "L",
        some ⟨2023, 3, 3, 0, 0, 0, 0⟩⟩] "q"
    (RichTableData.mk
      "[not italic]:snake:[/] [bold][magenta]https://pypi.org/search/?q=q[/] [not italic]:snake:[/]"
      ["Package", "Version", "Released", "Description"]
      [⟨"[link=L]:open_file_folder:[/link] foo", "[bold cyan]1.0.0 ==[/]", "Mar 3, 2023", "d"⟩,
       ⟨"[link=L]:open_file_folder:[/link] foo", "2.0.0 > [bold purple]1.0.0[/]", "Mar 3, 2023", "d"⟩,
       ⟨"[link=L]:open_file_folder:[/link] bar", "1.0.0", "Mar 3, 2023", "d"⟩])
    rfl).1

/-! ## Claim C3 -/

/-- C3 amended: absence of a required sub-element (name, version) makes the
parser fail, as the claim says; but absence of the released or description
sub-element equally makes it fail — the parser treats all four sub-elements
as required, and a parse that succeeds never returns a Package whose
released or description field is absent. -/
theorem C3_parser_requires_all_fields (cfg : Config) (item : Node) :
    ((selectOne (matchesTagClass "span" "name") item = none
        ∨ selectOne (matchesTagClass "span" "version") item = none
        ∨ selectOne (matchesTagClass "span" "released") item = none
        ∨ selectOne (matchesTagClass "p" "description") item = none) →
      ∃ e, PyPiAPI.parser cfg item = Except.error e)
    ∧ (∀ p, PyPiAPI.parser cfg item = Except.ok p →
        p.released ≠ none ∧ p.description ≠ none) := by
  constructor
  · intro h
    rcases hn : selectOne (matchesTagClass "span" "name") item with _ | nameEl
    · exact ⟨"AttributeError: NoneType object has no attribute text",
        by simp [PyPiAPI.parser, hn]⟩
    · rcases hv : selectOne (matchesTagClass "span" "version") item with _ | verEl
      · exact ⟨"AttributeError: NoneType object has no attribute text",
          by simp [PyPiAPI.parser, hn, hv]⟩
      · rcases hr : selectOne (matchesTagClass "span" "released") item with _ | relEl
        · exact ⟨"AttributeError: NoneType object has no attribute find",
            by simp [PyPiAPI.parser, hn, hv, hr]⟩
        · rcases h with h | h | h | h
          · exact absurd hn (h ▸ fun hc => Option.noConfusion hc)
          · exact absurd hv (h ▸ fun hc => Option.noConfusion hc)
          · exact absurd hr (h ▸ fun hc => Option.noConfusion hc)
          · rcases ht : selectOne (matchesTag "time") relEl with _ | timeEl
            · exact ⟨"TypeError: NoneType object is not subscriptable",
                by simp [PyPiAPI.parser, hn, hv, hr, ht]⟩
            · rcases hd : Node.attr "datetime" timeEl with _ | rel
              · exact ⟨"KeyError: datetime",
                  by simp [PyPiAPI.parser, hn, hv, hr, ht, hd]⟩
              · exact ⟨"AttributeError: NoneType object has no attribute text",
                  by simp [PyPiAPI.parser, hn, hv, hr, ht, hd, h]⟩
  · intro p hp
    rcases hn : selectOne (matchesTagClass "span" "name") item with _ | nameEl
    · simp [PyPiAPI.parser, hn] at hp
    · rcases hv : selectOne (matchesTagClass "span" "version") item with _ | verEl
      · simp [PyPiAPI.parser, hn, hv] at hp
      · rcases hr : selectOne (matchesTagClass "span" "released") item with _ | relEl
        · simp [PyPiAPI.parser, hn, hv, hr] at hp
        · rcases ht : selectOne (matchesTag "time") relEl with _ | timeEl
          · simp [PyPiAPI.parser, hn, hv, hr, ht] at hp
          · rcases hd : Node.attr "datetime" timeEl with _ | rel
            · simp [PyPiAPI.parser, hn, hv, hr, ht, hd] at hp
            · rcases hdesc : selectOne (matchesTagClass "p" "description") item with _ | descEl
              · simp [PyPiAPI.parser, hn, hv, hr, ht, hd, hdesc] at hp
              · simp only [PyPiAPI.parser, hn, hv, hr, ht, hd, hdesc] at hp
                unfold mkPackage at hp
                cases hemp : rel.data.isEmpty with
                | true =>
                  simp only [hemp, if_true, Except.ok.injEq] at hp
                  subst hp
                  exact ⟨fun hc => Option.noConfusion hc, fun hc => Option.noConfusion hc⟩
                | false =>
                  rcases hsp : strptime rel with _ | dt
                  · simp [hemp, hsp] at hp
                  · simp only [hemp, Bool.false_eq_true, if_false, hsp,
                      Except.ok.injEq] at hp
                    subst hp
                    exact ⟨fun hc => Option.noConfusion hc, fun hc => Option.noConfusion hc⟩

/-- C3 counterexample: a fragment carrying name, version and a released time
element but no description — the claim says parse succeeds with description
None, but the parser raises when select_one for the description returns
None. -/
theorem C3_counterexample :
    PyPiAPI.parser config
        (Node.el "a" [("class", "package-snippet"), ("href", "/project/foo/")]
          [Node.el "span" [("class", "package-snippet__name")] [Node.text "foo"],
           Node.el "span" [("class", "package-snippet__version")] [Node.text "1.0.0"],
           Node.el "span" [("class", "package-snippet__released")]
             [Node.el "time" [("datetime", "2023-03-03T00:00:00+0000")]
               [Node.text "Mar 3, 2023"]]])
      = Except.error "AttributeError: NoneType object has no attribute text" := rfl

/-- C3 witness: a fragment with no name sub-element makes the parser fail. -/
theorem C3_witness :
    ∃ e, PyPiAPI.parser config (Node.el "a" [("class", "package-snippet")] [])
      = Except.error e :=
  (C3_parser_requires_all_fields config (Node.el "a" [("class", "package-snippet")] [])).1
    (Or.inl rfl)

/-! ## Claim C4 -/

/-- C4 counterexample: with the default two-page configuration, a 500
response with a snippet-free body on page 1 does not abort the search and
surfaces no error — the status code is never consulted, page 2 is still
fetched and its snippet is yielded. -/
theorem C4_counterexample :
    PyPiAPI.search config
        (fun page =>
          if page = 1 then FetchOutcome.response 500 (Node.el "html" [] [])
          else
            FetchOutcome.response 200
              (Node.el "html" [] [Node.el "a" [("class", "package-snippet")] []]))
      = ([Node.el "a" [("class", "package-snippet")] []], none) := rfl

/-- C4 amended: only a transport failure (timeout, connection error) aborts
the page sequence: the escaping exception surfaces after the snippets of the
pages before the failing page were yielded, and later pages are dropped. A
non-2xx response is not an error: every response body is parsed and
contributes its matching snippets, and a page with zero matching snippets
contributes nothing — when no page raises, no error surfaces at all. -/
theorem C4_transport_only_aborts (fetch : Nat → FetchOutcome) :
    (∀ cfg : Config, PyPiAPI.search cfg fetch = searchPages fetch (List.range' 1 cfg.page_size))
    ∧ (∀ pages : List Nat,
        (∀ p ∈ pages, ∀ m, fetch p ≠ FetchOutcome.transportError m) →
        (searchPages fetch pages).2 = none)
    ∧ (∀ (pre : List Nat) (k : Nat) (post : List Nat) (m : String),
        (∀ p ∈ pre, ∀ m', fetch p ≠ FetchOutcome.transportError m') →
        fetch k = FetchOutcome.transportError m →
        searchPages fetch (pre ++ k :: post) = ((searchPages fetch pre).1, some m)) := by
  refine ⟨fun _ => rfl, ?_, ?_⟩
  · intro pages h
    induction pages with
    | nil => rfl
    | cons p ps ih =>
      cases hf : fetch p with
      | transportError m => exact absurd hf (h p (List.mem_cons_self p ps) m)
      | response st body =>
        simp only [searchPages, hf]
        exact ih (fun q hq m => h q (List.mem_cons_of_mem p hq) m)
  · intro pre k post m hpre hk
    induction pre with
    | nil => simp [searchPages, hk]
    | cons p ps ih =>
      cases hf : fetch p with
      | transportError m' => exact absurd hf (hpre p (List.mem_cons_self p ps) m')
      | response st body =>
        simp only [List.cons_append, List.append_eq, searchPages, hf]
        rw [ih (fun q hq m' => hpre q (List.mem_cons_of_mem p hq) m')]

/-- C4 witness: a connection error on page 2 aborts the sequence after page
1's snippet was yielded, surfacing the underlying exception. -/
theorem C4_witness :
    searchPages
        (fun page =>
          if page = 1 then
            FetchOutcome.response 200
              (Node.el "html" [] [Node.el "a" [("class", "snippet x")] []])
          else FetchOutcome.transportError "ConnectionError: page 2")
        ([1] ++ 2 :: [])
      = ((searchPages
            (fun page =>
              if page = 1 then
                FetchOutcome.response 200
                  (Node.el "html" [] [Node.el "a" [("class", "snippet x")] []])
              else FetchOutcome.transportError "ConnectionError: page 2")
            [1]).1,
         some "ConnectionError: page 2") :=
  (C4_transport_only_aborts _).2.2 [1] 2 [] "ConnectionError: page 2"
    (fun p hp m' => by
      rcases List.mem_singleton.mp hp with rfl
      intro hc
      simp at hc)
    rfl
